import Mathlib

/-!
Verification of the chart-table engine of `trombone_organizer.py`.

The embedding models the core data and operations of the program:
Python/JSON values (`PyVal`), Python `dict` operations on association
lists in insertion order, the `*_from_str` type-coercion functions,
the column schema built in `main`, the edit-confirmation handler
(`ChartDataTable._on_edit_confirmation`), the loader
(`ChartDataTable._read_chart_data`), the flush pass
(`ChartDataTable.apply_edits`), and the column sort
(`ChartDataTable._sort_by_column` / `_on_click_treeview`).

Python exceptions that a function raises and that a caller catches are
modelled with `Except`/`Option`; the raising `int(...)`/`float(...)`
builtins are modelled by partial parsers returning `Option`.  Floats are
modelled as rationals (no claim exercises float rounding).  Tk widget
state that the handlers read and write (the displayed cell texts) is an
explicit `cells` field of the table state; purely visual effects
(colours, widget placement) are outside the model.
-/

namespace TromboneOrganizer

/-- Python/JSON values as stored in chart documents and pending-edit maps.
`dict` keeps entries in insertion order, as Python dicts do. -/
inductive PyVal where
  | str (s : String)
  | int (n : Int)
  | float (q : Rat)
  | bool (b : Bool)
  | none
  | list (xs : List PyVal)
  | dict (d : List (String × PyVal))

/-- Models Python `x is None` for values in the update maps. -/
def PyVal.isNone : PyVal → Bool
  | .none => true
  | _ => false

/-- A JSON chart document: a Python dict with string keys. -/
abbrev Doc := List (String × PyVal)

/-- The pending edits of one record: column heading → staged value. -/
abbrev Updates := List (String × PyVal)

/-- Python `d[k]` / `d.get(k)` on a dict in insertion order. -/
def dictLookup {V : Type} : List (String × V) → String → Option V
  | [], _ => Option.none
  | p :: d, k => if p.1 == k then some p.2 else dictLookup d k

/-- Python `k in d`. -/
def dictContains {V : Type} (d : List (String × V)) (k : String) : Bool :=
  d.any (fun p => p.1 == k)

/-- Python `d[k] = v`: replaces the value in place if the key is present,
otherwise appends the new entry at the end (insertion order). -/
def dictSet {V : Type} (d : List (String × V)) (k : String) (v : V) :
    List (String × V) :=
  if dictContains d k then d.map (fun p => if p.1 == k then (k, v) else p)
  else d ++ [(k, v)]

/-- Python `d.update(u)`: sets every key of `u`, in `u`'s order. -/
def dictUpdate {V : Type} (d u : List (String × V)) : List (String × V) :=
  u.foldl (fun acc p => dictSet acc p.1 p.2) d

/-- Python `del d[k]` (at the call sites the key is always present). -/
def dictDel {V : Type} (d : List (String × V)) (k : String) :
    List (String × V) :=
  d.filter (fun p => !(p.1 == k))

/-- Python `str.splitlines()` restricted to the `\n`, `\r`, `\r\n`
terminators (the exotic Unicode terminators play no role here): the
terminators split the string, and a single trailing terminator does not
produce a final empty line. -/
def pySplitlines (s : String) : List String :=
  go s.data ""
where
  go : List Char → String → List String
  | [], acc => if acc == "" then [] else [acc]
  | '\r' :: '\n' :: rest, acc => acc :: go rest ""
  | '\n' :: rest, acc => acc :: go rest ""
  | '\r' :: rest, acc => acc :: go rest ""
  | c :: rest, acc => go rest (acc.push c)

/-- Python `str.strip()`: removes leading and trailing whitespace. -/
def pyStrip (s : String) : String :=
  ⟨((s.data.dropWhile Char.isWhitespace).reverse.dropWhile
      Char.isWhitespace).reverse⟩

/-- A nonempty all-digit character list read as a decimal number;
`Option.none` otherwise. -/
def digitsToNat? (ds : List Char) : Option Nat :=
  if ds == [] then Option.none
  else ds.foldl
    (fun acc c => acc.bind (fun n =>
      if c.isDigit then some (n * 10 + (c.toNat - 48)) else Option.none))
    (some 0)

/-- Models the Python builtin `int(s)`: surrounding whitespace is
stripped, an optional sign precedes the digits; `Option.none` when
`int` would raise `ValueError`. -/
def python_int_of_str (s : String) : Option Int :=
  match (pyStrip s).data with
  | '-' :: ds => (digitsToNat? ds).map (fun n => -(n : Int))
  | '+' :: ds => (digitsToNat? ds).map (fun n => (n : Int))
  | ds => (digitsToNat? ds).map (fun n => (n : Int))

/-- Models the Python builtin `float(s)` on plain decimal notation
(`[sign]digits` or `[sign]digits.digits`, after stripping whitespace) —
the only notation relevant here; `Option.none` when `float` would raise
`ValueError`.  No claim evaluates it on a nonempty string. -/
def python_float_of_str (s : String) : Option Rat :=
  let t := (pyStrip s).data
  let signed : Bool × List Char :=
    match t with
    | '-' :: r => (true, r)
    | '+' :: r => (false, r)
    | r => (false, r)
  let body := signed.2
  let w := body.takeWhile (fun c => !(c == '.'))
  let rest := body.dropWhile (fun c => !(c == '.'))
  let mag : Option Rat :=
    match rest with
    | [] => (digitsToNat? w).map (fun n => (n : Rat))
    | _ :: f =>
      match digitsToNat? w, digitsToNat? f with
      | some n, some fr => some ((n : Rat) + (fr : Rat) / (10 : Rat) ^ f.length)
      | _, _ => Option.none
  mag.map (fun q => if signed.1 then -q else q)

/-- `one_line_from_str` (source lines 34–37). -/
def one_line_from_str (s : String) : Except String String :=
  if (pySplitlines s).length > 1 then Except.error "Expected one line."
  else Except.ok s

/-- `positive_int_from_str` (source lines 40–46); a `ValueError` raised
by `int(s)` itself is also an `Except.error`. -/
def positive_int_from_str (s : String) : Except String Int :=
  if s == "" then Except.error "Expected an integer."
  else
    match python_int_of_str s with
    | Option.none => Except.error "invalid literal for int"
    | some n =>
      if n < 0 then Except.error "Expected positive integer." else Except.ok n

/-- `positive_float_from_str` (source lines 49–55). -/
def positive_float_from_str (s : String) : Except String Rat :=
  if s == "" then Except.error "Expected a number."
  else
    match python_float_of_str s with
    | Option.none => Except.error "could not convert string to float"
    | some n =>
      if n < 0 then Except.error "Expected positive number." else Except.ok n

/-- `positive_int_or_none_from_str` (source lines 58–61). -/
def positive_int_or_none_from_str (s : String) : Except String (Option Int) :=
  if s == "" then Except.ok Option.none
  else (positive_int_from_str s).map some

/-- `positive_float_or_none_from_str` (source lines 64–67). -/
def positive_float_or_none_from_str (s : String) : Except String (Option Rat) :=
  if s == "" then Except.ok Option.none
  else (positive_float_from_str s).map some

/-- `difficulty_from_str` (source lines 70–76). -/
def difficulty_from_str (s : String) : Except String Int :=
  if s == "" then Except.error "Expected an integer."
  else
    match python_int_of_str s with
    | Option.none => Except.error "invalid literal for int"
    | some d =>
      if d ≤ 0 || 10 < d then Except.error "Expected integer between 1 and 10."
      else Except.ok d

/-- Python `s.split()` with no argument: splits on runs of whitespace
and produces no empty tokens. -/
def pySplitWhitespace (s : String) : List String :=
  go s.data ""
where
  go : List Char → String → List String
  | [], acc => if acc == "" then [] else [acc]
  | c :: rest, acc =>
    if c.isWhitespace then
      if acc == "" then go rest "" else acc :: go rest ""
    else go rest (acc.push c)

/-- `note_color_from_str` (source lines 79–88): Python `s.split()` splits
on whitespace runs and drops empty tokens. -/
def note_color_from_str (s : String) : Except String (Option (List Rat)) :=
  if s == "" then Except.ok Option.none
  else
    let vals_str := pySplitWhitespace s
    if !(vals_str.length == 3) then Except.error "Expected 3 values."
    else
      match vals_str.mapM python_float_of_str with
      | Option.none => Except.error "could not convert string to float"
      | some vals =>
        if vals.any (fun v => v < 0 || 1 < v) then
          Except.error "Expected values between 0 and 1"
        else Except.ok (some vals)

/-- `ColSpec` (source lines 91–95): a column of the table.  `from_str`
is the optional coercion; a raw coercion returning a typed Python value
is wrapped into `PyVal` (Python does this implicitly by dynamic typing). -/
structure ColSpec where
  key : String
  width : Int := 200
  from_str : Option (String → Except String PyVal) := Option.none

/-- `ChartError` (source lines 98–103); `exception` holds `str(e)`. -/
structure ChartError where
  severity : String
  message : String
  chart : String
  exception : Option String := Option.none
  deriving DecidableEq

/-- `DIR_KEY` (source line 10). -/
def DIR_KEY : String := "Directory"

def wrapStr (f : String → Except String String) (s : String) :
    Except String PyVal :=
  (f s).map PyVal.str

def wrapInt (f : String → Except String Int) (s : String) :
    Except String PyVal :=
  (f s).map PyVal.int

def wrapFloat (f : String → Except String Rat) (s : String) :
    Except String PyVal :=
  (f s).map PyVal.float

def wrapOptInt (f : String → Except String (Option Int)) (s : String) :
    Except String PyVal :=
  (f s).map (fun o => match o with
    | Option.none => PyVal.none
    | some n => PyVal.int n)

def wrapColor (f : String → Except String (Option (List Rat))) (s : String) :
    Except String PyVal :=
  (f s).map (fun o => match o with
    | Option.none => PyVal.none
    | some vs => PyVal.list (vs.map PyVal.float))

/-- The column list built in `main` (source lines 416–436), in order;
`description` (and the `Directory` id column) carry no `from_str`. -/
def mainColumns : List ColSpec := [
  ⟨DIR_KEY, 80, Option.none⟩,
  ⟨"trackRef", 80, some (wrapStr one_line_from_str)⟩,
  ⟨"shortName", 200, some (wrapStr one_line_from_str)⟩,
  ⟨"name", 250, some (wrapStr one_line_from_str)⟩,
  ⟨"author", 150, some (wrapStr one_line_from_str)⟩,
  ⟨"year", 40, some (wrapInt positive_int_from_str)⟩,
  ⟨"genre", 100, some (wrapStr one_line_from_str)⟩,
  ⟨"description", 600, Option.none⟩,
  ⟨"difficulty", 40, some (wrapInt difficulty_from_str)⟩,
  ⟨"tempo", 40, some (wrapFloat positive_float_from_str)⟩,
  ⟨"timesig", 40, some (wrapInt positive_int_from_str)⟩,
  ⟨"endpoint", 40, some (wrapFloat positive_float_from_str)⟩,
  ⟨"savednotespacing", 40, some (wrapFloat positive_float_from_str)⟩,
  ⟨"note_color_start", 200, some (wrapColor note_color_from_str)⟩,
  ⟨"note_color_end", 200, some (wrapColor note_color_from_str)⟩,
  ⟨"UNK1", 50, some (wrapOptInt positive_int_or_none_from_str)⟩]

/-- The mutable state of `ChartDataTable` that the edit handler touches:
the displayed cell texts of the treeview (`cells row colNum`, where
`colNum` is the 1-based index `n` of the treeview column id `"#n"`),
and `_chart_updates_by_dir` (insertion-ordered dict of dicts). -/
structure TableState where
  cells : String → Nat → String
  chart_updates_by_dir : List (String × Updates)

/-- `ChartDataTable._get_column_specification` (source lines 282–283):
`self._columns[int(column[1:]) - 1]` for a column id `"#n"`, here
represented by `n` itself.  Valid ids are `"#1"…"#k"` for `k` columns,
so the default is never consulted at the call sites. -/
def get_column_specification (cols : List ColSpec) (colNum : Nat) : ColSpec :=
  cols.getD (colNum - 1) ⟨"", 200, Option.none⟩

/-- `ChartDataTable._get_column_heading` (source lines 252–253): the
heading text, which `__init__` (line 139) set to the column's `key`. -/
def get_column_heading (cols : List ColSpec) (colNum : Nat) : String :=
  (get_column_specification cols colNum).key

/-- `ChartDataTable._on_edit_confirmation` (source lines 311–333).
`rawInput` is the edit field's text; `row`/`colNum` are `_edit_coords`.
The three early `return`s — text equal to the displayed cell, a
`TypeError` from calling a `None` coercion, and a `ValueError` from the
coercion (both caught by `except Exception`) — leave the state
unchanged.  On success the displayed cell becomes the stripped text,
and the pending edit is recorded: a raw string for a record's first
pending edit (line 330 stores `new_val_str`), the coerced value
otherwise (line 332 stores `new_val`). -/
def on_edit_confirmation (cols : List ColSpec) (st : TableState)
    (row : String) (colNum : Nat) (rawInput : String) : TableState :=
  let new_val_str := pyStrip rawInput
  if new_val_str == st.cells row colNum then st
  else
    let col_spec := get_column_specification cols colNum
    match col_spec.from_str with
    | Option.none => st
    | some f =>
      match f new_val_str with
      | Except.error _ => st
      | Except.ok new_val =>
        let cells := fun r c =>
          if r == row && c == colNum then new_val_str else st.cells r c
        let heading := get_column_heading cols colNum
        let updates :=
          match dictLookup st.chart_updates_by_dir row with
          | Option.none =>
            dictSet st.chart_updates_by_dir row [(heading, PyVal.str new_val_str)]
          | some inner =>
            dictSet st.chart_updates_by_dir row (dictSet inner heading new_val)
        ⟨cells, updates⟩

/-- The state of `<chart_dir>/song.tmb` for one subdirectory. -/
inductive TmbFile where
  | missing
  | unreadable (exc : String)
  | parsed (v : PyVal)

/-- One entry of `charts_dir.iterdir()`: either not a directory, or a
chart directory together with the state of its `song.tmb`. -/
inductive DirEntry where
  | file (name : String)
  | dir (name : String) (tmb : TmbFile)

/-- `ChartDataTable._read_chart_data` (source lines 177–218), over the
directory listing: non-directories are skipped; a missing `song.tmb`
yields a Warning; an unreadable/unparseable one an Error; a parsed
non-dict value an Error; a parsed dict becomes the record.  Records and
errors are accumulated in iteration order. -/
def read_chart_data : List DirEntry → List (String × Doc) × List ChartError
  | [] => ([], [])
  | DirEntry.file _ :: rest => read_chart_data rest
  | DirEntry.dir name tmb :: rest =>
    match tmb with
    | TmbFile.missing =>
      ((read_chart_data rest).1,
        ⟨"Warning", "No data file, song skipped.", name, Option.none⟩
          :: (read_chart_data rest).2)
    | TmbFile.unreadable exc =>
      ((read_chart_data rest).1,
        ⟨"Error", "Could not read JSON data, song skipped.", name, some exc⟩
          :: (read_chart_data rest).2)
    | TmbFile.parsed (PyVal.dict d) =>
      ((name, d) :: (read_chart_data rest).1, (read_chart_data rest).2)
    | TmbFile.parsed _ =>
      ((read_chart_data rest).1,
        ⟨"Error", "JSON data from is not a dictionary, song skipped.", name, Option.none⟩
          :: (read_chart_data rest).2)

/-- The filesystem as `apply_edits` sees it: re-reading
`<dir>/song.tmb` either raises (`Option.none`) or yields a parsed JSON
value, and the rewrite of the file either succeeds or raises. -/
structure Fs where
  read : String → Option PyVal
  writeOk : String → Bool

/-- The body of the per-record loop of `ChartDataTable.apply_edits`
(source lines 337–381): re-read the document, require a dict, apply
`chart_data.update(updates)` followed by `del chart_data[key]` for every
key whose staged value `is None`, then write.  Returns the written
document, or the `ChartError` appended for this record. -/
def flush_record (fs : Fs) (dir : String) (updates : Updates) :
    Except ChartError Doc :=
  match fs.read dir with
  | Option.none =>
    Except.error ⟨"Error", "Could not read chart data to update, song skipped.", dir, some "read failed"⟩
  | some (PyVal.dict chart_data) =>
    let merged := dictUpdate chart_data updates
    let merged := updates.foldl
      (fun acc p => if p.2.isNone then dictDel acc p.1 else acc) merged
    if fs.writeOk dir then Except.ok merged
    else Except.error ⟨"Error", "Could not update chart data file.", dir, some "write failed"⟩
  | some _ =>
    Except.error ⟨"Error", "JSON data from is not a dictionary, song skipped.", dir, Option.none⟩

/-- The loop of `apply_edits` over `_chart_updates_by_dir`, collecting
errors and the documents actually written, in iteration order. -/
def apply_edits_loop (fs : Fs) :
    List (String × Updates) → List ChartError × List (String × Doc)
  | [] => ([], [])
  | (dir, u) :: rest =>
    match flush_record fs dir u with
    | Except.ok w =>
      ((apply_edits_loop fs rest).1, (dir, w) :: (apply_edits_loop fs rest).2)
    | Except.error e =>
      (e :: (apply_edits_loop fs rest).1, (apply_edits_loop fs rest).2)

/-- `ChartDataTable.apply_edits` (source lines 335–386): runs the loop,
then unconditionally resets `_chart_updates_by_dir as a whole to `{}`
(line 383).  Result: (errors, written documents, new pending map). -/
def apply_edits (fs : Fs) (chart_updates_by_dir : List (String × Updates)) :
    List ChartError × List (String × Doc) × List (String × Updates) :=
  let (es, ws) := apply_edits_loop fs chart_updates_by_dir
  (es, ws, [])

/-- `ChartDataTable._sort_by_column` (source lines 274–280):
`items.sort(key=lambda item: tree.set(item, col), reverse=reverse)`.
Python's `list.sort` is a stable sort by the key — also with
`reverse=True`, where rows with equal keys keep their original relative
order.  A stable sort's output is uniquely determined by the key order
and the input order, so it is modelled by insertion sort with the
non-strict comparison `key a ≤ key b` (with `reverse`: `key b ≤ key a`),
which is stable in exactly that sense.  `cellText item col` is the
displayed text `tree.set(item, col)` of the cell. -/
def sort_by_column (cellText : String → Nat → String) (col : Nat)
    (reverse : Bool) (items : List String) : List String :=
  if reverse then
    List.insertionSort (fun a b => cellText b col ≤ cellText a col) items
  else
    List.insertionSort (fun a b => cellText a col ≤ cellText b col) items

/-- The sort-related state of `ChartDataTable`: `_sorted_column` and
`_sorted_reverse` (source lines 113–114; initially `None`, `False`). -/
structure SortUiState where
  sorted_column : Option Nat
  sorted_reverse : Bool

/-- The heading branch of `ChartDataTable._on_click_treeview` (source
lines 285–296): clicking the already-active column re-sorts with the
toggled direction; clicking a different column sorts ascending and
makes it the active column.  Returns the new sort state and the new row
order of the treeview. -/
def on_click_heading (cellText : String → Nat → String)
    (st : SortUiState) (items : List String) (col : Nat) :
    SortUiState × List String :=
  if st.sorted_column == some col then
    (⟨st.sorted_column, !st.sorted_reverse⟩,
      sort_by_column cellText col (!st.sorted_reverse) items)
  else
    (⟨some col, false⟩, sort_by_column cellText col false items)

/-- A root entry that yields a record: a subdirectory whose `song.tmb`
parses as a JSON object. -/
def isWellFormedEntry : DirEntry → Bool
  | DirEntry.dir _ (TmbFile.parsed (PyVal.dict _)) => true
  | _ => false

/-- A malformed chart subdirectory: metadata file missing, unreadable
or unparseable, or parsed to a non-object top-level value.
Non-directory entries are neither well-formed nor malformed. -/
def isMalformedEntry : DirEntry → Bool
  | DirEntry.dir _ TmbFile.missing => true
  | DirEntry.dir _ (TmbFile.unreadable _) => true
  | DirEntry.dir _ (TmbFile.parsed (PyVal.dict _)) => false
  | DirEntry.dir _ (TmbFile.parsed _) => true
  | DirEntry.file _ => false

/-- The `ChartError` that `_read_chart_data` emits for one root entry
(`Option.none` when the entry produces no error). -/
def entryError : DirEntry → Option ChartError
  | DirEntry.dir n TmbFile.missing =>
    some ⟨"Warning", "No data file, song skipped.", n, Option.none⟩
  | DirEntry.dir n (TmbFile.unreadable exc) =>
    some ⟨"Error", "Could not read JSON data, song skipped.", n, some exc⟩
  | DirEntry.dir _ (TmbFile.parsed (PyVal.dict _)) => Option.none
  | DirEntry.dir n (TmbFile.parsed _) =>
    some ⟨"Error", "JSON data from is not a dictionary, song skipped.", n, Option.none⟩
  | DirEntry.file _ => Option.none

section Theorems

/-- C9: staging text whose stripped form equals the currently displayed
cell text is a no-op for every schema, table state, record and column:
the handler returns before coercion or validation runs, and the whole
state — in particular the pending-edit map — is exactly unchanged, even
when the text would fail the column's validation. -/
theorem c9_stage_displayed_text_noop (cols : List ColSpec)
    (st : TableState) (row : String) (colNum : Nat) (rawInput : String)
    (h : pyStrip rawInput = st.cells row colNum) :
    on_edit_confirmation cols st row colNum rawInput = st := by
  unfold on_edit_confirmation
  simp [h]

/-- C9 witness: staging `"  x "` over a cell displaying `"x"` leaves
the state unchanged (here: a state with an empty pending-edit map). -/
theorem c9_stage_displayed_text_noop_witness :
    (pyStrip "  x " = (fun (_ : String) (_ : Nat) => "x") "r" 2) ∧
    on_edit_confirmation mainColumns ⟨fun _ _ => "x", []⟩ "r" 2 "  x " =
      (⟨fun _ _ => "x", []⟩ : TableState) :=
  ⟨by decide,
    c9_stage_displayed_text_noop mainColumns ⟨fun _ _ => "x", []⟩ "r" 2 "  x "
      (by decide)⟩

/-- C5 counterexample: staging empty text on the single-line String
column `trackRef` (column id `"#2"`, displayed value `"abc"`) does not
fail: `one_line_from_str ""` succeeds, so a pending edit for
`("r", "trackRef")` is recorded, refuting "empty text on a non-optional
column always fails with a ValidationError". -/
theorem c5_counterexample :
    (on_edit_confirmation mainColumns ⟨fun _ _ => "abc", []⟩ "r" 2
        "").chart_updates_by_dir
      = [("r", [("trackRef", PyVal.str "")])] := by
  rfl

/-- C5 amended: empty text is rejected by the Integer (`year`,
`timesig`), Float (`tempo`, `endpoint`, `savednotespacing`) and
DifficultyInt (`difficulty`) coercions, but the single-line String
columns (`trackRef`, `shortName`, `name`, `author`, `genre`) accept it:
`one_line_from_str ""` succeeds with the empty string. -/
theorem c5_amended_empty_text :
    one_line_from_str "" = Except.ok "" ∧
    positive_int_from_str "" = Except.error "Expected an integer." ∧
    positive_float_from_str "" = Except.error "Expected a number." ∧
    difficulty_from_str "" = Except.error "Expected an integer." :=
  ⟨rfl, rfl, rfl, rfl⟩

/-- C2: the `description` column (column id `"#8"`) has no `from_str`
coercion, so `col_spec.from_str(new_val_str)` raises `TypeError`, which
`except Exception` catches: staging text on `description` that differs
from the displayed value is silently dropped and no pending edit is
ever recorded — the code at the failing input. -/
theorem c2_description_edit_always_rejected :
    (on_edit_confirmation mainColumns ⟨fun _ _ => "", []⟩ "r" 8
        "hello").chart_updates_by_dir = [] := by
  rfl

/-- C3: a record's first pending edit stores the raw display string
(line 330 stores `new_val_str`), not the coerced typed value; a later
edit of the same record stores the typed value (line 332).  Staging
`"5"` on the Integer column `year` (column id `"#6"`) as the first edit
of record `"r"` stores `PyVal.str "5"` although coercion yields
`PyVal.int 5`; staging `"3"` on `timesig` (`"#11"`) afterwards stores
`PyVal.int 3`. -/
theorem c3_first_edit_stores_raw_string :
    wrapInt positive_int_from_str "5" = Except.ok (PyVal.int 5) ∧
    (on_edit_confirmation mainColumns ⟨fun _ _ => "4", []⟩ "r" 6
        "5").chart_updates_by_dir
      = [("r", [("year", PyVal.str "5")])] ∧
    PyVal.str "5" ≠ PyVal.int 5 ∧
    (on_edit_confirmation mainColumns
        ⟨fun _ _ => "4", [("r", [("year", PyVal.str "5")])]⟩ "r" 11
        "3").chart_updates_by_dir
      = [("r", [("year", PyVal.str "5"), ("timesig", PyVal.int 3)])] :=
  ⟨rfl, rfl, fun h => PyVal.noConfusion h, rfl⟩

/-- C4: staging the delete-sentinel (empty text) on `UNK1` (column id
`"#16"`) as the record's first and only pending edit stores the raw
string `""` instead of the typed `None`, so the flush's
`updates[key] is None` test never fires: the persisted document still
contains the key `"UNK1"`, now bound to the empty string, instead of
lacking it — the code at the failing input. -/
theorem c4_first_edit_delete_sentinel_not_deleted :
    positive_int_or_none_from_str "" = Except.ok Option.none ∧
    (on_edit_confirmation mainColumns ⟨fun _ _ => "5", []⟩ "r" 16
        "").chart_updates_by_dir
      = [("r", [("UNK1", PyVal.str "")])] ∧
    flush_record
        ⟨fun _ => some (PyVal.dict [("UNK1", PyVal.int 5), ("name", PyVal.str "x")]),
          fun _ => true⟩
        "r" [("UNK1", PyVal.str "")]
      = Except.ok [("UNK1", PyVal.str ""), ("name", PyVal.str "x")] :=
  ⟨rfl, rfl, rfl⟩

/-- C1 counterexample: a flush over a session with one dirty record
whose re-read fails emits one error, yet the pending-edit map is reset
to empty (line 383 clears it unconditionally): the failed record does
not stay dirty, refuting "its pending edits remain in the session". -/
theorem c1_counterexample :
    (apply_edits ⟨fun _ => Option.none, fun _ => true⟩
        [("r", [("name", PyVal.str "x")])]).1.length = 1 ∧
    (apply_edits ⟨fun _ => Option.none, fun _ => true⟩
        [("r", [("name", PyVal.str "x")])]).2.2 = [] :=
  ⟨rfl, rfl⟩

/-- Helper: the flush loop produces one error per failing dirty record
and one written document per succeeding one. -/
theorem apply_edits_loop_lengths (fs : Fs) (m : List (String × Updates)) :
    (apply_edits_loop fs m).1.length
      = m.countP (fun p => match flush_record fs p.1 p.2 with
          | Except.ok _ => false
          | Except.error _ => true) ∧
    (apply_edits_loop fs m).2.length
      = m.countP (fun p => match flush_record fs p.1 p.2 with
          | Except.ok _ => true
          | Except.error _ => false) := by
  induction m with
  | nil => exact ⟨rfl, rfl⟩
  | cons p rest ih =>
    obtain ⟨dir, u⟩ := p
    obtain ⟨ih1, ih2⟩ := ih
    cases hf : flush_record fs dir u with
    | ok w => simp [apply_edits_loop, hf, ih1, ih2, List.countP_cons]
    | error e => simp [apply_edits_loop, hf, ih1, ih2, List.countP_cons]

/-- C1 amended: a flush does not leave failed records dirty: after
`apply_edits`, the pending-edit map is reset to empty unconditionally
(source line 383), for every filesystem behaviour and session; each
dirty record whose re-read, parse, non-object check, or write fails
contributes one PersistError, and each one whose write succeeds
contributes one written document — but all of them alike lose their
pending edits. -/
theorem c1_amended_flush_always_clears (fs : Fs) (m : List (String × Updates)) :
    (apply_edits fs m).2.2 = [] ∧
    (apply_edits fs m).1.length
      = m.countP (fun p => match flush_record fs p.1 p.2 with
          | Except.ok _ => false
          | Except.error _ => true) ∧
    (apply_edits fs m).2.1.length
      = m.countP (fun p => match flush_record fs p.1 p.2 with
          | Except.ok _ => true
          | Except.error _ => false) :=
  ⟨rfl, (apply_edits_loop_lengths fs m).1, (apply_edits_loop_lengths fs m).2⟩

/-- C6: for every root listing, `_read_chart_data` returns exactly one
record per subdirectory whose metadata file parses as a JSON object and
exactly one `ChartError` per malformed subdirectory (missing file,
unreadable/unparseable JSON, or non-object top-level value), never
aborting; the error list is precisely the per-entry classification, so
missing-file entries carry severity `"Warning"` and the other two kinds
severity `"Error"`. -/
theorem c6_partial_load_tolerance (entries : List DirEntry) :
    (read_chart_data entries).1.length = entries.countP isWellFormedEntry ∧
    (read_chart_data entries).2.length = entries.countP isMalformedEntry ∧
    (read_chart_data entries).2 = entries.filterMap entryError := by
  induction entries with
  | nil => exact ⟨rfl, rfl, rfl⟩
  | cons e rest ih =>
    obtain ⟨ih1, ih2, ih3⟩ := ih
    have ih4 : (List.filterMap entryError rest).length
        = List.countP isMalformedEntry rest := ih3 ▸ ih2
    cases e with
    | file n =>
      simp [read_chart_data, isWellFormedEntry, isMalformedEntry, entryError,
        List.countP_cons, List.filterMap_cons, ih1, ih2, ih3, ih4]
    | dir n tmb =>
      cases tmb with
      | missing =>
        simp [read_chart_data, isWellFormedEntry, isMalformedEntry, entryError,
          List.countP_cons, List.filterMap_cons, ih1, ih2, ih3, ih4]
      | unreadable exc =>
        simp [read_chart_data, isWellFormedEntry, isMalformedEntry, entryError,
          List.countP_cons, List.filterMap_cons, ih1, ih2, ih3, ih4]
      | parsed v =>
        cases v <;>
          simp [read_chart_data, isWellFormedEntry, isMalformedEntry, entryError,
            List.countP_cons, List.filterMap_cons, ih1, ih2, ih3, ih4]

/-- C10: an entry of the root directory that is not itself a directory
is silently ignored wherever it occurs in the listing: it contributes
neither a record nor a `ChartError` to the load result. -/
theorem c10_non_directory_entries_ignored (pre post : List DirEntry) (name : String) :
    read_chart_data (pre ++ DirEntry.file name :: post)
      = read_chart_data (pre ++ post) := by
  induction pre with
  | nil => rfl
  | cons e rest ih =>
    cases e with
    | file n => simpa [read_chart_data] using ih
    | dir n tmb =>
      cases tmb with
      | missing => simp [read_chart_data, ih]
      | unreadable exc => simp [read_chart_data, ih]
      | parsed v => cases v <;> simp [read_chart_data, ih]

theorem dictLookup_map_set_ne {V : Type} (d : List (String × V)) (k0 k : String)
    (v : V) (hne : k0 ≠ k) :
    dictLookup (d.map (fun p => if p.1 == k0 then (k0, v) else p)) k
      = dictLookup d k := by
  induction d with
  | nil => rfl
  | cons p rest ih =>
    simp only [dictLookup, List.map_cons, beq_iff_eq] at ih ⊢
    by_cases hp1 : p.1 = k0
    · simp [dictLookup, beq_iff_eq, hp1, hne, ih]
    · have hk0 : ¬ k = k0 := fun h => hne h.symm
      by_cases hpk : p.1 = k
      · simp [dictLookup, beq_iff_eq, hp1, hpk, hk0]
      · simp [dictLookup, beq_iff_eq, hp1, hpk, hk0, ih]

theorem dictLookup_append_single_ne {V : Type} (d : List (String × V))
    (k0 k : String) (v : V) (hne : k0 ≠ k) :
    dictLookup (d ++ [(k0, v)]) k = dictLookup d k := by
  induction d with
  | nil => simp [dictLookup, hne]
  | cons p rest ih =>
    by_cases hpk : p.1 == k
    · simp [dictLookup, hpk]
    · simp [dictLookup, hpk, ih]

theorem dictLookup_dictSet_ne {V : Type} (d : List (String × V))
    (k0 k : String) (v : V) (hne : k0 ≠ k) :
    dictLookup (dictSet d k0 v) k = dictLookup d k := by
  unfold dictSet
  split
  · exact dictLookup_map_set_ne d k0 k v hne
  · exact dictLookup_append_single_ne d k0 k v hne

theorem dictLookup_dictUpdate_not_mem {V : Type} (u : List (String × V))
    (d : List (String × V)) (k : String) (h : ∀ p ∈ u, p.1 ≠ k) :
    dictLookup (dictUpdate d u) k = dictLookup d k := by
  induction u generalizing d with
  | nil => rfl
  | cons p rest ih =>
    have hstep : dictUpdate d (p :: rest) = dictUpdate (dictSet d p.1 p.2) rest := rfl
    rw [hstep, ih (dictSet d p.1 p.2) (fun q hq => h q (List.mem_cons_of_mem p hq)),
      dictLookup_dictSet_ne d p.1 k p.2 (h p (List.mem_cons_self p rest))]

theorem dictLookup_dictDel_ne {V : Type} (d : List (String × V))
    (k0 k : String) (hne : k0 ≠ k) :
    dictLookup (dictDel d k0) k = dictLookup d k := by
  induction d with
  | nil => rfl
  | cons p rest ih =>
    simp only [dictDel, dictLookup, List.filter_cons, beq_iff_eq] at ih ⊢
    by_cases hp1 : p.1 = k0
    · simp [dictLookup, beq_iff_eq, hp1, hne, Ne.symm, ih]
    · have hk0 : ¬ k = k0 := fun h => hne h.symm
      by_cases hpk : p.1 = k
      · simp [dictLookup, beq_iff_eq, hp1, hpk, hk0]
      · simp [dictLookup, beq_iff_eq, hp1, hpk, hk0, ih]

theorem dictLookup_del_loop_not_mem (u : Updates) (d : Doc) (k : String)
    (h : ∀ p ∈ u, p.1 ≠ k) :
    dictLookup
        (u.foldl (fun acc p => if p.2.isNone then dictDel acc p.1 else acc) d) k
      = dictLookup d k := by
  induction u generalizing d with
  | nil => rfl
  | cons p rest ih =>
    rw [List.foldl_cons]
    rw [ih _ (fun q hq => h q (List.mem_cons_of_mem p hq))]
    by_cases hn : p.2.isNone
    · simp only [hn, if_true]
      exact dictLookup_dictDel_ne d p.1 k (h p (List.mem_cons_self p rest))
    · simp [hn]

/-- C8: `apply_edits` re-reads the record's document from disk and
merges the pending edits into that re-read document: every key of the
re-read on-disk document with no pending edit for the record — keys
outside the declared schema and keys whose on-disk value changed after
load included — appears in the written document with its re-read
on-disk value unchanged. -/
theorem c8_unedited_keys_survive_flush (fs : Fs) (dir : String) (d : Doc)
    (u : Updates) (k : String)
    (hread : fs.read dir = some (PyVal.dict d))
    (hwrite : fs.writeOk dir = true)
    (hk : ∀ p ∈ u, p.1 ≠ k) :
    ∃ w, flush_record fs dir u = Except.ok w ∧
      dictLookup w k = dictLookup d k := by
  have hw : flush_record fs dir u
      = Except.ok (u.foldl (fun acc p => if p.2.isNone then dictDel acc p.1 else acc)
          (dictUpdate d u)) := by
    unfold flush_record
    rw [hread]
    simp [hwrite]
  exact ⟨_, hw, (dictLookup_del_loop_not_mem u (dictUpdate d u) k hk).trans
    (dictLookup_dictUpdate_not_mem u d k hk)⟩

/-- C8 witness: a record whose on-disk document gained the out-of-band
value `1999` for `year`... a flush staging only `year` leaves the
unedited pass-through key `bgdata` untouched. -/
theorem c8_witness :
    ∃ w, flush_record
        ⟨fun _ => some (PyVal.dict [("year", PyVal.int 1999), ("bgdata", PyVal.str "blob")]),
          fun _ => true⟩ "r" [("year", PyVal.int 2000)]
        = Except.ok w ∧
      dictLookup w "bgdata"
        = dictLookup [("year", PyVal.int 1999), ("bgdata", PyVal.str "blob")] "bgdata" :=
  c8_unedited_keys_survive_flush _ "r" _ _ "bgdata" rfl rfl
    (by intro p hp; rw [List.mem_singleton] at hp; subst hp; decide)

/-- Helper: inserting an element whose key is strictly below every key
of a descending-sorted list places it at the end. -/
theorem orderedInsert_desc_append {α : Type} (key : α → String) (x : α)
    (l : List α) (h : ∀ y ∈ l, key x < key y) :
    List.orderedInsert (fun a b => key b ≤ key a) x l = l ++ [x] := by
  induction l with
  | nil => rfl
  | cons y ys ih =>
    have hxy : ¬ (key y ≤ key x) := not_le.mpr (h y (List.mem_cons_self y ys))
    simp only [List.orderedInsert, if_neg hxy]
    rw [ih (fun z hz => h z (List.mem_cons_of_mem y hz))]
    rfl

/-- Helper: the stable descending sort of a strictly ascending list is
its exact reverse. -/
theorem insertionSort_desc_of_strictSorted {α : Type} (key : α → String)
    (m : List α) (h : m.Pairwise (fun a b => key a < key b)) :
    List.insertionSort (fun a b => key b ≤ key a) m = m.reverse := by
  induction m with
  | nil => rfl
  | cons x xs ih =>
    rw [List.pairwise_cons] at h
    simp only [List.insertionSort]
    rw [ih h.2, orderedInsert_desc_append key x xs.reverse
      (fun y hy => h.1 y (List.mem_reverse.mp hy)), List.reverse_cons]

/-- Helper: with pairwise distinct keys, the ascending stable sort is
strictly ascending. -/
theorem insertionSort_asc_strictSorted {α : Type} (key : α → String)
    (items : List α) (hd : items.Pairwise (fun a b => key a ≠ key b)) :
    (List.insertionSort (fun a b => key a ≤ key b) items).Pairwise
      (fun a b => key a < key b) := by
  haveI : IsTotal α (fun a b => key a ≤ key b) := ⟨fun a b => le_total _ _⟩
  haveI : IsTrans α (fun a b => key a ≤ key b) :=
    ⟨fun a b c hab hbc => le_trans hab hbc⟩
  have hsorted : (List.insertionSort (fun a b => key a ≤ key b) items).Pairwise
      (fun a b => key a ≤ key b) := List.sorted_insertionSort _ items
  have hne : (List.insertionSort (fun a b => key a ≤ key b) items).Pairwise
      (fun a b => key a ≠ key b) :=
    ((List.perm_insertionSort (fun a b => key a ≤ key b) items).pairwise_iff
      (fun hxy e => hxy e.symm)).mpr hd
  exact (hsorted.and hne).imp (fun h => lt_of_le_of_ne h.1 h.2)

/-- C7 amended: clicking the same column heading twice yields the exact
reverse row sequence whenever the presented texts of that column are
pairwise distinct across the rows.  When several rows have equal
presented text the law fails (see the counterexample): Python's sort is
stable also with `reverse=True`, so tied rows keep their relative order
in both sorts instead of being reversed. -/
theorem c7_amended_sort_toggle (ct : String → Nat → String) (col : Nat)
    (items : List String)
    (hdistinct : items.Pairwise (fun a b => ct a col ≠ ct b col)) :
    (on_click_heading ct (on_click_heading ct ⟨Option.none, false⟩ items col).1
        (on_click_heading ct ⟨Option.none, false⟩ items col).2 col).2
      = (on_click_heading ct ⟨Option.none, false⟩ items col).2.reverse := by
  have hstrict := insertionSort_asc_strictSorted (fun s => ct s col) items hdistinct
  have hfirst : on_click_heading ct ⟨Option.none, false⟩ items col
      = (⟨some col, false⟩, sort_by_column ct col false items) := rfl
  rw [hfirst]
  have hbeq : ((⟨some col, false⟩ : SortUiState).sorted_column == some col) = true := by
    simp
  simp only [on_click_heading, hbeq, if_true, Bool.not_false, sort_by_column,
    if_true, Bool.false_eq_true, if_false]
  exact insertionSort_desc_of_strictSorted (fun s => ct s col) _ hstrict

/-- C7 counterexample: with two rows `"a"`, `"b"` showing equal
presented text `"same"` in the clicked column, the first sort yields
`["a", "b"]` and the toggled second sort yields `["a", "b"]` again —
not the exact reverse `["b", "a"]` — refuting the claim for rows with
equal presented text. -/
theorem c7_counterexample :
    (on_click_heading (fun _ _ => "same")
        (on_click_heading (fun _ _ => "same") ⟨Option.none, false⟩ ["a", "b"] 3).1
        (on_click_heading (fun _ _ => "same") ⟨Option.none, false⟩ ["a", "b"] 3).2 3).2
      = ["a", "b"] ∧
    (on_click_heading (fun _ _ => "same") ⟨Option.none, false⟩ ["a", "b"] 3).2
      = ["a", "b"] ∧
    (["a", "b"] : List String) ≠ (["a", "b"] : List String).reverse := by
  refine ⟨?_, ?_, by decide⟩ <;>
    simp [on_click_heading, sort_by_column, List.insertionSort, List.orderedInsert]

/-- C7 witness: two rows with distinct presented texts, sorted twice by
the same column, come back exactly reversed. -/
theorem c7_amended_sort_toggle_witness :
    ((["b", "a"] : List String).Pairwise
        (fun x y => (fun (r : String) (_ : Nat) => r) x 3
          ≠ (fun (r : String) (_ : Nat) => r) y 3)) ∧
    (on_click_heading (fun r _ => r)
        (on_click_heading (fun r _ => r) ⟨Option.none, false⟩ ["b", "a"] 3).1
        (on_click_heading (fun r _ => r) ⟨Option.none, false⟩ ["b", "a"] 3).2 3).2
      = (on_click_heading (fun r _ => r) ⟨Option.none, false⟩ ["b", "a"] 3).2.reverse :=
  ⟨by decide, c7_amended_sort_toggle (fun r _ => r) 3 ["b", "a"] (by decide)⟩

end Theorems

end TromboneOrganizer
